import Mathlib

/-!
Verification of the `nexus-typescript-client` event-delivery client
(`src/index.ts`) via a shallow embedding in Lean 4.

The embedding models:
* JSON values and `JSON.stringify` (insertion-ordered object keys,
  string escaping as in the ECMAScript specification for the
  characters the client can produce);
* the `NexusClient` class: its constructor (configuration validation)
  and its `send` method (payload normalization, request construction,
  response handling);
* the injected `fetch` transport as an opaque function from requests
  to outcomes, and the observable effects of a call (`fetch`
  invocations and response-body reads) as an explicit effect log.
-/

/-- A JSON value as handled by `JSON.stringify`: object fields keep
their insertion order, numbers are modelled as integers. -/
inductive Json where
  | null
  | bool (b : Bool)
  | num (n : Int)
  | str (s : String)
  | arr (xs : List Json)
  | obj (kvs : List (String × Json))

/-- One hexadecimal digit, lower case, as in `\u00XX` escapes. -/
def hexDigit (n : Nat) : Char :=
  if n < 10 then Char.ofNat (n + 48) else Char.ofNat (n + 87)

/-- Escape a single character the way `JSON.stringify` escapes
characters inside a string literal. -/
def escapeChar (c : Char) : String :=
  if c = '"' then "\\\""
  else if c = '\\' then "\\\\"
  else if c = '\n' then "\\n"
  else if c = '\r' then "\\r"
  else if c = '\t' then "\\t"
  else if c.toNat = 8 then "\\b"
  else if c.toNat = 12 then "\\f"
  else if c.toNat < 32 then
    "\\u00" ++ String.singleton (hexDigit (c.toNat / 16))
      ++ String.singleton (hexDigit (c.toNat % 16))
  else String.singleton c

/-- Quote a string as a JSON string literal, as `JSON.stringify` does. -/
def jsonQuote (s : String) : String :=
  "\"" ++ String.join (s.toList.map escapeChar) ++ "\""

mutual

/-- `JSON.stringify` on a JSON value. -/
def Json.serialize : Json → String
  | .null => "null"
  | .bool true => "true"
  | .bool false => "false"
  | .num n => toString n
  | .str s => jsonQuote s
  | .arr xs => "[" ++ Json.serializeArr xs ++ "]"
  | .obj kvs => "\x7b" ++ Json.serializeFields kvs ++ "\x7d"

/-- Comma-separated serialization of the elements of a JSON array. -/
def Json.serializeArr : List Json → String
  | [] => ""
  | [x] => Json.serialize x
  | x :: y :: rest => Json.serialize x ++ "," ++ Json.serializeArr (y :: rest)

/-- Comma-separated serialization of the fields of a JSON object,
in insertion order. -/
def Json.serializeFields : List (String × Json) → String
  | [] => ""
  | [(k, v)] => jsonQuote k ++ ":" ++ Json.serialize v
  | (k, v) :: p :: rest =>
      jsonQuote k ++ ":" ++ Json.serialize v ++ "," ++ Json.serializeFields (p :: rest)

end

/-- `Array.isArray`. -/
def Json.isArr : Json → Bool
  | .arr _ => true
  | _ => false

/-- A JavaScript error value. `id` stands for the object's reference
identity, `message` for its `.message` string; propagating an error
unchanged preserves both. -/
structure JsError where
  id : Nat
  message : String
deriving Repr, DecidableEq

instance instDecEqExcept {α β : Type} [DecidableEq α] [DecidableEq β] :
    DecidableEq (Except α β)
  | .ok a, .ok b =>
      if h : a = b then isTrue (by rw [h]) else isFalse (by simp [h])
  | .ok _, .error _ => isFalse (by simp)
  | .error _, .ok _ => isFalse (by simp)
  | .error a, .error b =>
      if h : a = b then isTrue (by rw [h]) else isFalse (by simp [h])

/-- The response object the transport resolves with, exposing the
fields the client reads: `ok`, `status`, `statusText`, and the
outcome of `await response.text()` (which may itself fail). An `id`
field stands for the object's reference identity, so "returned
unmodified" is expressible. -/
structure Response where
  id : Nat
  ok : Bool
  status : Nat
  statusText : String
  textBody : Except JsError String
deriving Repr, DecidableEq

/-- Outcome of awaiting the injected `fetch`: it either resolves with
a `Response` or rejects with an error. -/
inductive FetchResult where
  | resolved (r : Response)
  | rejected (e : JsError)
deriving Repr, DecidableEq

/-- The HTTP request handed to the transport: URL, method, the exact
header list in insertion order, and the serialized body. -/
structure Request where
  url : String
  method : String
  headers : List (String × String)
  body : String
deriving Repr, DecidableEq

/-- The injected transport: an opaque function from a request to the
settled outcome of its promise. -/
def Transport : Type := Request → FetchResult

/-- Constructor options (`NexusClientOptions` in `src/index.ts`):
`url` and `token`, with `none` standing for an absent (`undefined`)
field and `some ""` for an explicitly empty string. The optional
`fetch` field is modelled by which `Transport` a later `send` uses,
since the stored function is opaque. -/
structure NexusClientOptions where
  url : Option String
  token : Option String

/-- JavaScript truthiness check `!s` on a possibly-absent string:
true exactly when the field is missing (`undefined`) or the empty
string. -/
def strFalsy : Option String → Bool
  | none => true
  | some s => s = ""

/-- The error thrown by the constructor when configuration is
invalid (the spec's `ConfigurationError`). -/
inductive ConstructError where
  | configurationError (msg : String)
deriving Repr, DecidableEq

/-- The configured client: the `url` and `token` stored by the
constructor. The stored `fetch` function is opaque and is passed to
`send` explicitly as a `Transport`. -/
structure NexusClient where
  url : String
  token : String
deriving Repr, DecidableEq

/-- `new NexusClient(options)` from `src/index.ts`: store `url` and
`token`, then throw unless both are truthy (non-empty, present). -/
def NexusClient.create (options : NexusClientOptions) :
    Except ConstructError NexusClient :=
  let url := options.url.getD ""
  let token := options.token.getD ""
  if strFalsy options.url || strFalsy options.token then
    .error (.configurationError "NexusClient requires both `url` and `token`.")
  else
    .ok { url := url, token := token }

/-- An observable effect of running the client: a call to the
transport, or a read of a response body via `response.text()`. -/
inductive Effect where
  | fetched (req : Request)
  | readBody (responseId : Nat)
deriving Repr, DecidableEq

/-- The requests issued within an effect log. -/
def requestsOf (log : List Effect) : List Request :=
  log.filterMap fun e =>
    match e with
    | .fetched req => some req
    | _ => none

/-- The constructor threaded through the effect log: the body of the
constructor in `src/index.ts` contains no transport call and no body
read, so it appends nothing to the log. -/
def NexusClient.createLogged (options : NexusClientOptions)
    (log : List Effect) :
    Except ConstructError NexusClient × List Effect :=
  (NexusClient.create options, log)

/-- The error with which a `send` promise rejects: the
`DeliveryError` thrown on a non-ok response, or a propagated
JavaScript error (transport rejection, or failure of
`response.text()`). -/
inductive SendError where
  | delivery (msg : String)
  | jsErr (e : JsError)
deriving Repr, DecidableEq

/-- Lines 28–36 of `src/index.ts`: normalize the input with
`Array.isArray`, then build the POST request with the two headers and
the `JSON.stringify` of the normalized payload. -/
def NexusClient.buildRequest (c : NexusClient) (events : Json) : Request :=
  let payload : List Json :=
    match events with
    | .arr es => es
    | e => [e]
  { url := c.url
    method := "POST"
    headers := [("Content-Type", "application/json"),
                ("Authorization", "Bearer " ++ c.token)]
    body := Json.serialize (.arr payload) }

/-- `NexusClient.send` from `src/index.ts`, with the effect log made
explicit: build the request, await the transport; on rejection the
error propagates; on a response with `ok` false, await `text()`
(propagating its failure) and throw the `DeliveryError` message; on
`ok` true return the response itself. -/
def NexusClient.send (c : NexusClient) (fetchFn : Transport)
    (events : Json) (log : List Effect) :
    Except SendError Response × List Effect :=
  let req := c.buildRequest events
  let log := log ++ [.fetched req]
  match fetchFn req with
  | .rejected e => (.error (.jsErr e), log)
  | .resolved response =>
    if response.ok then
      (.ok response, log)
    else
      let log := log ++ [.readBody response.id]
      match response.textBody with
      | .error e => (.error (.jsErr e), log)
      | .ok errorBody =>
        (.error (.delivery ("Failed to send event(s): "
            ++ toString response.status ++ " " ++ response.statusText
            ++ " - " ++ errorBody)), log)

/-- The mutable store visible to a `send` call: the client object,
the caller's events value, and the effect log. The source method
assigns to none of the first two; the embedding carries them
explicitly so that this can be stated. -/
structure SendWorld where
  client : NexusClient
  events : Json
  effects : List Effect

/-- `send` acting on the whole visible store: the method body in
`src/index.ts` contains no assignment to `this.url`, `this.token` or
`this.fetchFn` and no mutation of `events`; its only effects are the
transport call and the possible body read. -/
def sendWorld (w : SendWorld) (fetchFn : Transport) :
    Except SendError Response × SendWorld :=
  let out := w.client.send fetchFn w.events w.effects
  (out.1, { client := w.client, events := w.events, effects := out.2 })

theorem requestsOf_append (a b : List Effect) :
    requestsOf (a ++ b) = requestsOf a ++ requestsOf b := by
  simp [requestsOf]

theorem requestsOf_nil : requestsOf [] = [] := rfl

theorem requestsOf_fetched (req : Request) (l : List Effect) :
    requestsOf (.fetched req :: l) = req :: requestsOf l := by
  simp [requestsOf]

theorem requestsOf_readBody (i : Nat) (l : List Effect) :
    requestsOf (.readBody i :: l) = requestsOf l := by
  simp [requestsOf]

theorem requestsOf_send (c : NexusClient) (fetchFn : Transport)
    (events : Json) (log : List Effect) :
    requestsOf (c.send fetchFn events log).2
      = requestsOf log ++ [c.buildRequest events] := by
  cases hf : fetchFn (c.buildRequest events) with
  | rejected e =>
      simp [NexusClient.send, hf, requestsOf_append, requestsOf_fetched,
        requestsOf_nil]
  | resolved r =>
      by_cases hok : r.ok
      · simp [NexusClient.send, hf, hok, requestsOf_append, requestsOf_fetched,
          requestsOf_nil]
      · rcases htb : r.textBody with e | b <;>
          simp [NexusClient.send, hf, hok, htb, requestsOf_append,
            requestsOf_fetched, requestsOf_readBody, requestsOf_nil]

theorem send_log_growth (c : NexusClient) (fetchFn : Transport)
    (events : Json) (log : List Effect) :
    ∃ tail, (c.send fetchFn events log).2 = log ++ tail := by
  cases hf : fetchFn (c.buildRequest events) with
  | rejected e =>
      exact ⟨[.fetched (c.buildRequest events)], by simp [NexusClient.send, hf]⟩
  | resolved r =>
      by_cases hok : r.ok
      · exact ⟨[.fetched (c.buildRequest events)],
          by simp [NexusClient.send, hf, hok]⟩
      · rcases htb : r.textBody with e | b
        · exact ⟨[.fetched (c.buildRequest events), .readBody r.id],
            by simp [NexusClient.send, hf, hok, htb]⟩
        · exact ⟨[.fetched (c.buildRequest events), .readBody r.id],
            by simp [NexusClient.send, hf, hok, htb]⟩

/-- Claim C1: for every input to `send`, exactly one request is
issued, and its body is the JSON serialization of the batch-shaped
payload: for a single event `e` the body is the serialization of
`[e]`, and for an array `es` the body is the serialization of `es`
unchanged (order preserved, no deduplication). -/
theorem send_one_request_batch_body (c : NexusClient) (fetchFn : Transport)
    (events : Json) (log : List Effect) :
    requestsOf (c.send fetchFn events log).2
      = requestsOf log ++ [c.buildRequest events]
    ∧ (events.isArr = false →
        (c.buildRequest events).body = Json.serialize (.arr [events]))
    ∧ (∀ es, events = .arr es →
        (c.buildRequest events).body = Json.serialize (.arr es)) := by
  refine ⟨requestsOf_send c fetchFn events log, ?_, ?_⟩
  · intro h
    cases events <;> simp_all [Json.isArr, NexusClient.buildRequest]
  · rintro es rfl
    simp [NexusClient.buildRequest]

/-- Witness for C1 at a concrete client, transport, a single event,
and an array with a repeated element. -/
theorem send_one_request_batch_body_witness :
    requestsOf (NexusClient.send ⟨"u", "t"⟩ (fun _ => .rejected ⟨0, "boom"⟩)
        (.obj [("type", .str "x")]) []).2
      = [NexusClient.buildRequest ⟨"u", "t"⟩ (.obj [("type", .str "x")])]
    ∧ (NexusClient.buildRequest ⟨"u", "t"⟩ (.obj [("type", .str "x")])).body
      = Json.serialize (.arr [.obj [("type", .str "x")]])
    ∧ (NexusClient.buildRequest ⟨"u", "t"⟩ (.arr [.null, .null])).body
      = Json.serialize (.arr [.null, .null]) := by
  have h1 := send_one_request_batch_body ⟨"u", "t"⟩
    (fun _ => .rejected ⟨0, "boom"⟩) (.obj [("type", .str "x")]) []
  have h2 := send_one_request_batch_body ⟨"u", "t"⟩
    (fun _ => .rejected ⟨0, "boom"⟩) (.arr [.null, .null]) []
  exact ⟨h1.1, h1.2.1 rfl, h2.2.2 [.null, .null] rfl⟩

/-- Claim C2: construction with both `url` and `token` truthy
(present and non-empty) succeeds, storing them, and performs no
transport call; construction with either empty or missing fails with
the configuration error, before any transport call. -/
theorem create_validates_config_without_io (options : NexusClientOptions)
    (log : List Effect) :
    (NexusClient.createLogged options log).2 = log
    ∧ ((strFalsy options.url || strFalsy options.token) = false →
        NexusClient.create options
          = .ok { url := options.url.getD "", token := options.token.getD "" })
    ∧ ((strFalsy options.url || strFalsy options.token) = true →
        NexusClient.create options
          = .error (.configurationError
              "NexusClient requires both `url` and `token`.")) := by
  refine ⟨rfl, ?_, ?_⟩ <;> intro h <;> simp [NexusClient.create, h]

/-- Witness for C2: a valid configuration, and one with a missing
url. -/
theorem create_validates_config_without_io_witness :
    (NexusClient.createLogged ⟨some "u", some "t"⟩ []).2 = []
    ∧ NexusClient.create ⟨some "u", some "t"⟩ = .ok ⟨"u", "t"⟩
    ∧ NexusClient.create ⟨none, some "t"⟩
        = .error (.configurationError
            "NexusClient requires both `url` and `token`.") := by
  refine ⟨(create_validates_config_without_io ⟨some "u", some "t"⟩ []).1,
    ?_, ?_⟩
  · exact (create_validates_config_without_io ⟨some "u", some "t"⟩ []).2.1
      (by decide)
  · exact (create_validates_config_without_io ⟨none, some "t"⟩ []).2.2
      (by decide)

/-- Claim C3: on a response with `ok` false, `send` reads the body
text and fails with a delivery error whose message is exactly
"Failed to send event(s): <status> <statusText> - <body>"; if reading
the body fails, that failure propagates instead. -/
theorem send_nonok_delivery_error (c : NexusClient) (fetchFn : Transport)
    (events : Json) (log : List Effect) (r : Response)
    (hf : fetchFn (c.buildRequest events) = .resolved r)
    (hok : r.ok = false) :
    (∀ body, r.textBody = .ok body →
        (c.send fetchFn events log).1
          = .error (.delivery ("Failed to send event(s): "
              ++ toString r.status ++ " " ++ r.statusText ++ " - " ++ body)))
    ∧ (∀ e, r.textBody = .error e →
        (c.send fetchFn events log).1 = .error (.jsErr e))
    ∧ (c.send fetchFn events log).2
        = log ++ [.fetched (c.buildRequest events), .readBody r.id] := by
  refine ⟨?_, ?_, ?_⟩
  · intro body htb
    simp [NexusClient.send, hf, hok, htb]
  · intro e htb
    simp [NexusClient.send, hf, hok, htb]
  · rcases htb : r.textBody with e | b <;>
      simp [NexusClient.send, hf, hok, htb]

/-- Witness for C3: a 404 Not Found response with body "missing"
yields exactly the specified message, and a failing body read
propagates its own error. -/
theorem send_nonok_delivery_error_witness :
    (NexusClient.send ⟨"u", "t"⟩
        (fun _ => .resolved ⟨1, false, 404, "Not Found", .ok "missing"⟩)
        (.obj [("type", .str "x")]) []).1
      = .error (.delivery "Failed to send event(s): 404 Not Found - missing")
    ∧ (NexusClient.send ⟨"u", "t"⟩
        (fun _ => .resolved ⟨1, false, 500, "Err", .error ⟨9, "readfail"⟩⟩)
        .null []).1
      = .error (.jsErr ⟨9, "readfail"⟩) := by
  have h1 := (send_nonok_delivery_error ⟨"u", "t"⟩
      (fun _ => .resolved ⟨1, false, 404, "Not Found", .ok "missing"⟩)
      (.obj [("type", .str "x")]) []
      ⟨1, false, 404, "Not Found", .ok "missing"⟩ rfl rfl).1 "missing" rfl
  have h2 := (send_nonok_delivery_error ⟨"u", "t"⟩
      (fun _ => .resolved ⟨1, false, 500, "Err", .error ⟨9, "readfail"⟩⟩)
      .null [] ⟨1, false, 500, "Err", .error ⟨9, "readfail"⟩⟩ rfl rfl).2.1
      ⟨9, "readfail"⟩ rfl
  exact ⟨h1.trans (by decide), h2⟩

/-- Claim C4: every issued request is a POST to the configured
endpoint carrying exactly the two headers Content-Type and
Authorization with the bearer token, and no others; concretely, the
client configured with endpoint "https://api.test/events" and token
"abc" sending the event of kind "x" issues one POST to that URL with
those headers and the expected one-element array body. -/
theorem send_request_shape (c : NexusClient) (fetchFn : Transport)
    (events : Json) (log : List Effect) :
    ((c.buildRequest events).method = "POST"
      ∧ (c.buildRequest events).url = c.url
      ∧ (c.buildRequest events).headers
          = [("Content-Type", "application/json"),
             ("Authorization", "Bearer " ++ c.token)])
    ∧ NexusClient.buildRequest ⟨"https://api.test/events", "abc"⟩
          (.obj [("type", .str "x")])
        = { url := "https://api.test/events", method := "POST",
            headers := [("Content-Type", "application/json"),
                        ("Authorization", "Bearer abc")],
            body := "[\x7b\"type\":\"x\"\x7d]" }
    ∧ requestsOf (NexusClient.send ⟨"https://api.test/events", "abc"⟩ fetchFn
          (.obj [("type", .str "x")]) log).2
        = requestsOf log
          ++ [NexusClient.buildRequest ⟨"https://api.test/events", "abc"⟩
                (.obj [("type", .str "x")])] := by
  refine ⟨⟨?_, ?_, ?_⟩, ?_, requestsOf_send _ _ _ _⟩
  · cases events <;> rfl
  · cases events <;> rfl
  · cases events <;> rfl
  · simp only [NexusClient.buildRequest, Json.serialize, Json.serializeArr,
      Json.serializeFields]
    decide

/-- Claim C5: on a response with `ok` true, `send` resolves to that
same response object unmodified, and the only effect on this path is
the single transport call (no body read). -/
theorem send_ok_returns_same_response (c : NexusClient) (fetchFn : Transport)
    (events : Json) (log : List Effect) (r : Response)
    (hf : fetchFn (c.buildRequest events) = .resolved r)
    (hok : r.ok = true) :
    (c.send fetchFn events log).1 = .ok r
    ∧ (c.send fetchFn events log).2
        = log ++ [.fetched (c.buildRequest events)] := by
  constructor <;> simp [NexusClient.send, hf, hok]

/-- Witness for C5 at a concrete ok response. -/
theorem send_ok_returns_same_response_witness :
    (NexusClient.send ⟨"u", "t"⟩
        (fun _ => .resolved ⟨7, true, 200, "OK", .ok "ignored"⟩)
        (.arr []) []).1
      = .ok ⟨7, true, 200, "OK", .ok "ignored"⟩
    ∧ (NexusClient.send ⟨"u", "t"⟩
        (fun _ => .resolved ⟨7, true, 200, "OK", .ok "ignored"⟩)
        (.arr []) []).2
      = [.fetched (NexusClient.buildRequest ⟨"u", "t"⟩ (.arr []))] := by
  exact send_ok_returns_same_response ⟨"u", "t"⟩
    (fun _ => .resolved ⟨7, true, 200, "OK", .ok "ignored"⟩)
    (.arr []) [] ⟨7, true, 200, "OK", .ok "ignored"⟩ rfl rfl

/-- Claim C6: a failure raised by the transport itself propagates
out of `send` as that same error, with identity and message
preserved, with no retry (the log gains exactly one transport call)
and no wrapping or reclassification. Serialization in the embedding
is a total function on JSON values, so no serialization failure can
arise from acyclic event data; a transport-level failure is the only
failure source before the response check. -/
theorem send_propagates_transport_rejection (c : NexusClient)
    (fetchFn : Transport) (events : Json) (log : List Effect) (e : JsError)
    (hf : fetchFn (c.buildRequest events) = .rejected e) :
    (c.send fetchFn events log).1 = .error (.jsErr e)
    ∧ (c.send fetchFn events log).2
        = log ++ [.fetched (c.buildRequest events)] := by
  constructor <;> simp [NexusClient.send, hf]

/-- Witness for C6 at a concrete rejecting transport. -/
theorem send_propagates_transport_rejection_witness :
    (NexusClient.send ⟨"u", "t"⟩ (fun _ => .rejected ⟨3, "network down"⟩)
        (.obj [("type", .str "x")]) []).1
      = .error (.jsErr ⟨3, "network down"⟩) := by
  exact (send_propagates_transport_rejection ⟨"u", "t"⟩
    (fun _ => .rejected ⟨3, "network down"⟩)
    (.obj [("type", .str "x")]) [] ⟨3, "network down"⟩ rfl).1

/-- Claim C7: `send` is deterministic in its request body: two calls
on the same client with structurally equal event data issue two
requests with identical bodies (object keys are serialized in their
stored order, so equal values serialize identically). -/
theorem send_body_deterministic (c : NexusClient) (f g : Transport)
    (e1 e2 : Json) (log : List Effect) (h : e1 = e2) :
    (c.buildRequest e1).body = (c.buildRequest e2).body
    ∧ requestsOf (c.send g e2 (c.send f e1 log).2).2
        = requestsOf log ++ [c.buildRequest e1, c.buildRequest e2] := by
  subst h
  refine ⟨rfl, ?_⟩
  rw [requestsOf_send, requestsOf_send]
  simp

/-- Witness for C7: two successive sends of the same event value. -/
theorem send_body_deterministic_witness :
    (NexusClient.buildRequest ⟨"u", "t"⟩ (.obj [("type", .str "x")])).body
      = (NexusClient.buildRequest ⟨"u", "t"⟩ (.obj [("type", .str "x")])).body
    ∧ requestsOf (NexusClient.send ⟨"u", "t"⟩ (fun _ => .rejected ⟨0, "a"⟩)
        (.obj [("type", .str "x")])
        ((NexusClient.send ⟨"u", "t"⟩ (fun _ => .rejected ⟨1, "b"⟩)
          (.obj [("type", .str "x")]) []).2)).2
      = [NexusClient.buildRequest ⟨"u", "t"⟩ (.obj [("type", .str "x")]),
         NexusClient.buildRequest ⟨"u", "t"⟩ (.obj [("type", .str "x")])] := by
  have h := send_body_deterministic ⟨"u", "t"⟩ (fun _ => .rejected ⟨1, "b"⟩)
    (fun _ => .rejected ⟨0, "a"⟩) (.obj [("type", .str "x")])
    (.obj [("type", .str "x")]) [] rfl
  exact ⟨h.1, h.2⟩

/-- Claim C8: `send` leaves everything outside the network request
unchanged: after a call on the visible store, the events value and
the client's stored configuration are identical, and the only state
change is effects appended to the log; the client's state type holds
only `url` and `token`, so no event data can be retained in it. -/
theorem send_frame (w : SendWorld) (fetchFn : Transport) :
    (sendWorld w fetchFn).2.client = w.client
    ∧ (sendWorld w fetchFn).2.events = w.events
    ∧ ∃ tail, (sendWorld w fetchFn).2.effects = w.effects ++ tail := by
  exact ⟨rfl, rfl, send_log_growth w.client fetchFn w.events w.effects⟩

/-- Claim C9: `send` performs no runtime validation of event
contents: for every input, including an object lacking a `type` key
or one whose `type` is the empty string, it issues the request whose
body is the serialization of the normalized array, exactly as for
any other event. -/
theorem send_no_event_validation (c : NexusClient) (fetchFn : Transport)
    (events : Json) (log : List Effect) :
    requestsOf (c.send fetchFn events log).2
      = requestsOf log ++ [c.buildRequest events]
    ∧ (c.buildRequest (.obj [("data", .num 1)])).body
        = "[\x7b\"data\":1\x7d]"
    ∧ (c.buildRequest (.obj [("type", .str "")])).body
        = "[\x7b\"type\":\"\"\x7d]" := by
  refine ⟨requestsOf_send _ _ _ _, ?_, ?_⟩ <;>
  · simp only [NexusClient.buildRequest, Json.serialize, Json.serializeArr,
      Json.serializeFields]
    decide

/-- Claim C10: for the input `null`, `send` raises no client-side
validation error and does not fail before the transport: the value
is wrapped into a one-element array, the body serializes to
"[null]", exactly one request is issued, and the outcome is whatever
the transport answers. -/
theorem send_null_is_wrapped_and_sent (c : NexusClient) (fetchFn : Transport)
    (log : List Effect) :
    (c.buildRequest .null).body = "[null]"
    ∧ requestsOf (c.send fetchFn .null log).2
        = requestsOf log ++ [c.buildRequest .null]
    ∧ (∀ r, fetchFn (c.buildRequest .null) = .resolved r → r.ok = true →
        (c.send fetchFn .null log).1 = .ok r)
    ∧ (∀ e, fetchFn (c.buildRequest .null) = .rejected e →
        (c.send fetchFn .null log).1 = .error (.jsErr e)) := by
  refine ⟨?_, requestsOf_send _ _ _ _, ?_, ?_⟩
  · simp [NexusClient.buildRequest, Json.serialize, Json.serializeArr]
  · intro r hf hok
    simp [NexusClient.send, hf, hok]
  · intro e hf
    simp [NexusClient.send, hf]

/-- Witness for C10: `null` sent through an ok transport and through
a rejecting transport. -/
theorem send_null_is_wrapped_and_sent_witness :
    (NexusClient.buildRequest ⟨"u", "t"⟩ .null).body = "[null]"
    ∧ (NexusClient.send ⟨"u", "t"⟩
        (fun _ => .resolved ⟨2, true, 200, "OK", .ok ""⟩) .null []).1
      = .ok ⟨2, true, 200, "OK", .ok ""⟩
    ∧ (NexusClient.send ⟨"u", "t"⟩ (fun _ => .rejected ⟨5, "neterr"⟩)
        .null []).1
      = .error (.jsErr ⟨5, "neterr"⟩) := by
  have h1 := send_null_is_wrapped_and_sent ⟨"u", "t"⟩
    (fun _ => .resolved ⟨2, true, 200, "OK", .ok ""⟩) []
  have h2 := send_null_is_wrapped_and_sent ⟨"u", "t"⟩
    (fun _ => .rejected ⟨5, "neterr"⟩) []
  exact ⟨h1.1, h1.2.2.1 ⟨2, true, 200, "OK", .ok ""⟩ rfl rfl,
    h2.2.2.2 ⟨5, "neterr"⟩ rfl⟩
